import Mathlib

/-!
Verification of the feedback scoring and aggregation pipeline of the
`ux-research-automation` repository.

Shallow embedding conventions:
* Python floats become `ℚ`; `round(x, k)` becomes round-half-to-even at the
  k-th decimal (`round1`, `round2`, `round3` below), Python's documented
  rounding mode.
* A pandas column of possibly-missing numbers becomes `List (Option ℚ)`
  (`none` is NaN/missing); comparisons against NaN are `false`, as in pandas.
* A feedback cell becomes `Option String` (`none` is a null/NaN entry).
* The TextBlob polarity scorer is external: it is a parameter
  `score : String → ℚ` of the sentiment functions.
* Python dicts whose key sets matter are embedded as association lists in
  insertion order; `collections.Counter` items are modelled as the list of
  keys in first-occurrence order paired with their multiplicities, and
  `Counter.most_common(n)` as a stable descending sort by count followed by
  `take n` (CPython's `most_common` is documented as
  `sorted(items, reverse=True)[:n]`, which is stable).
* Text handling models the ASCII behaviour of `re.findall(r'\b\w+\b', ...)`
  on lower-cased text: maximal runs of alphanumeric-or-underscore characters.
-/

/-! ### Rounding (Python `round`, half-to-even, over ℚ) -/

/-- Round a rational to the nearest integer, ties to even
(the behaviour of Python's built-in `round`). -/
def roundHE (x : ℚ) : ℤ :=
  let f : ℤ := ⌊x⌋
  let r : ℚ := x - f
  if r < 1/2 then f
  else if 1/2 < r then f + 1
  else if f % 2 = 0 then f else f + 1

/-- Python `round(x, 1)`. -/
def round1 (x : ℚ) : ℚ := (roundHE (10 * x) : ℚ) / 10

/-- Python `round(x, 2)`. -/
def round2 (x : ℚ) : ℚ := (roundHE (100 * x) : ℚ) / 100

/-- Python `round(x, 3)`. -/
def round3 (x : ℚ) : ℚ := (roundHE (1000 * x) : ℚ) / 1000

/-! ### Tokenization: `re.findall(r'\b\w+\b', text.lower())` (ASCII model) -/

/-- A `\w` character (ASCII): letter, digit or underscore. -/
def isWordChar (c : Char) : Bool := c.isAlphanum || c == '_'

/-- Split a character stream into maximal runs of word characters;
`acc` holds the current run, reversed. -/
def tokenizeAux : List Char → List Char → List String
  | [], [] => []
  | [], acc => [String.mk acc.reverse]
  | c :: rest, acc =>
    if isWordChar c then tokenizeAux rest (c :: acc)
    else
      match acc with
      | [] => tokenizeAux rest []
      | _ => String.mk acc.reverse :: tokenizeAux rest []

/-- Model of `re.findall(r'\b\w+\b', str(feedback).lower())`: lower-case every
character, then split into maximal word-character runs. -/
def tokenize (s : String) : List String :=
  tokenizeAux (s.toList.map Char.toLower) []

namespace FeedbackAnalyzer

/-! ### `analyze_sentiment` (feedback_analyzer.py lines 35-78) -/

/-- Polarity-to-category rule (lines 53-59). -/
def classify (p : ℚ) : String :=
  if 1/10 < p then "positive"
  else if p < -(1/10) then "negative"
  else "neutral"

/-- Per-response branch of the sentiment loop (lines 44-62): a null entry is
labelled neutral with score 0 without consulting the scorer; otherwise the
injected polarity scorer is applied and the result classified. -/
def classifyOne (score : String → ℚ) : Option String → String × ℚ
  | none => ("neutral", 0)
  | some t => (classify (score t), score t)

/-- The per-response (sentiment, score) pairs, in input order. -/
def sentimentsOf (score : String → ℚ) (data : List (Option String)) :
    List (String × ℚ) :=
  data.map (classifyOne score)

/-- The run-level aggregate stored in
`analysis_results['sentiment_analysis']` (lines 67-75): category counts,
category percentages rounded to 1 decimal, mean polarity rounded to
3 decimals. The percentages dict holds only categories that occur; an
absent category is recorded here as count 0 and percentage `round1 0 = 0`,
the value `dict.get(cat, 0)` yields downstream. -/
structure SentimentSummary where
  nPositive : ℕ
  nNegative : ℕ
  nNeutral : ℕ
  pctPositive : ℚ
  pctNegative : ℚ
  pctNeutral : ℚ
  averageSentiment : ℚ
deriving DecidableEq, Repr

/-- Model of `analyze_sentiment` on loaded data. On an empty feedback list the line
`sum(sentiment_scores) / len(sentiment_scores)` raises `ZeroDivisionError`;
that error branch is `none`. -/
def analyze_sentiment (score : String → ℚ) (data : List (Option String)) :
    Option SentimentSummary :=
  if data.length = 0 then none
  else
    let labeled := sentimentsOf score data
    let n : ℚ := data.length
    let nPos := labeled.countP (fun r => r.1 = "positive")
    let nNeg := labeled.countP (fun r => r.1 = "negative")
    let nNeu := labeled.countP (fun r => r.1 = "neutral")
    some
      { nPositive := nPos
        nNegative := nNeg
        nNeutral := nNeu
        pctPositive := round1 ((nPos : ℚ) / n * 100)
        pctNegative := round1 ((nNeg : ℚ) / n * 100)
        pctNeutral := round1 ((nNeu : ℚ) / n * 100)
        averageSentiment := round3 ((labeled.map (·.2)).sum / n) }

/-! ### `extract_themes` (feedback_analyzer.py lines 80-139) -/

/-- The fixed UX keyword vocabulary (lines 87-95). -/
def ux_keywords : List String :=
  ["easy", "difficult", "confusing", "intuitive", "simple", "complicated",
   "fast", "slow", "quick", "loading", "responsive", "laggy",
   "design", "interface", "layout", "navigation", "menu", "button",
   "search", "find", "discover", "browse", "filter", "sort",
   "recommendation", "suggest", "personalize", "relevant", "accurate",
   "bug", "error", "crash", "broken", "issue", "problem",
   "love", "hate", "like", "dislike", "amazing", "terrible", "great", "awful"]

/-- The fixed category → keyword-list mapping (lines 116-124),
in dict insertion order. -/
def theme_categories : List (String × List String) :=
  [("usability", ["easy", "difficult", "confusing", "intuitive", "simple", "complicated"]),
   ("performance", ["fast", "slow", "quick", "loading", "responsive", "laggy"]),
   ("design", ["design", "interface", "layout", "navigation", "menu", "button"]),
   ("functionality", ["search", "find", "discover", "browse", "filter", "sort"]),
   ("personalization", ["recommendation", "suggest", "personalize", "relevant", "accurate"]),
   ("technical_issues", ["bug", "error", "crash", "broken", "issue", "problem"]),
   ("sentiment", ["love", "hate", "like", "dislike", "amazing", "terrible", "great", "awful"])]

/-- Model of `all_keywords` (lines 98-109): for each non-null feedback, the tokens of
its lower-cased text that belong to `ux_keywords`, concatenated in order. -/
def all_keywords (data : List (Option String)) : List String :=
  (data.map (fun fb =>
    match fb with
    | none => []
    | some t => (tokenize t).filter (· ∈ ux_keywords))).flatten

/-- Model of `keyword_counts[k]` (line 112): raw corpus-wide occurrence count. -/
def keyword_count (data : List (Option String)) (k : String) : ℕ :=
  (all_keywords data).count k

/-- Model of `common_themes.get(k, 0)` (lines 113, 128): the raw count if it meets the
minimum-frequency threshold, else 0 (keyword absent from the dict). -/
def common_get (min_frequency : ℕ) (data : List (Option String)) (k : String) : ℕ :=
  let c := keyword_count data k
  if min_frequency ≤ c then c else 0

/-- The `common_keywords` dict as an association list: keys in
first-occurrence order of `all_keywords`, restricted to keywords whose raw
count meets the threshold, each paired with its raw count (line 113). -/
def keysInOrder (l : List String) : List String :=
  l.foldl (fun acc w => if w ∈ acc then acc else acc ++ [w]) []

/-- The items view of `collections.Counter l`: keys in first-occurrence
order, paired with multiplicities. -/
def tally (l : List String) : List (String × ℕ) :=
  (keysInOrder l).map (fun w => (w, l.count w))

/-- Model of the `common_themes` dict (line 113) as an association list. -/
def common_keywords (min_frequency : ℕ) (data : List (Option String)) :
    List (String × ℕ) :=
  (tally (all_keywords data)).filter (fun p => min_frequency ≤ p.2)

/-- Model of `categorized_themes` (lines 126-130): per category, the sum over its
keywords of `common_themes.get(keyword, 0)`; categories with total 0 are
omitted. -/
def categorized_themes (min_frequency : ℕ) (data : List (Option String)) :
    List (String × ℕ) :=
  (theme_categories.map (fun p =>
    (p.1, (p.2.map (common_get min_frequency data)).sum))).filter
    (fun p => 0 < p.2)

/-- The value returned by `extract_themes(min_frequency)` (lines 132-136). -/
structure ThemeAnalysis where
  commonKeywords : List (String × ℕ)
  themeCategories : List (String × ℕ)
  totalKeywordsFound : ℕ
deriving DecidableEq, Repr

/-- Model of `extract_themes` (lines 80-139). -/
def extract_themes (min_frequency : ℕ) (data : List (Option String)) :
    ThemeAnalysis :=
  { commonKeywords := common_keywords min_frequency data
    themeCategories := categorized_themes min_frequency data
    totalKeywordsFound := (all_keywords data).length }

/-! ### `identify_priority_issues` (feedback_analyzer.py lines 141-182) -/

/-- The fixed problem-keyword vocabulary (lines 163-167), in list order. -/
def problem_keywords : List String :=
  ["slow", "confusing", "difficult", "complicated", "broken", "error",
   "bug", "crash", "loading", "laggy", "terrible", "awful", "hate",
   "problem", "issue", "frustrating", "annoying"]

/-- One retained priority issue (lines 174-178). -/
structure Issue where
  issue : String
  frequency : ℕ
  percentage : ℚ
deriving DecidableEq, Repr

/-- The result shape of `identify_priority_issues`: either the sentinel dict
`{'message': 'No negative feedback found'}` (line 151) or the ranked list. -/
inductive PriorityResult where
  | sentinel : PriorityResult
  | issues : List Issue → PriorityResult
deriving DecidableEq, Repr

/-- Model of `negative_keywords` (lines 154-160): all tokens of the non-null texts of
responses labelled "negative", concatenated in order. The input is the
annotated data after `analyze_sentiment`: pairs of (feedback, sentiment). -/
def negative_keywords (analyzed : List (Option String × String)) : List String :=
  ((analyzed.filter (fun r => r.2 = "negative")).map (fun r =>
    match r.1 with
    | none => []
    | some t => tokenize t)).flatten

/-- The `most_common` ordering: descending by count. -/
def countsDesc (a b : String × ℕ) : Prop := b.2 ≤ a.2

instance : DecidableRel countsDesc := fun a b => Nat.decLe b.2 a.2

instance : IsTotal (String × ℕ) countsDesc := ⟨fun a b => Nat.le_total b.2 a.2⟩

instance : IsTrans (String × ℕ) countsDesc :=
  ⟨fun _ _ _ h h' => Nat.le_trans h' h⟩

/-- Model of `Counter.most_common n`: stable descending sort by count, first n
(CPython documents it as `sorted(items, reverse=True)[:n]`; insertion sort
with a non-strict relation is stable in the same way). -/
def most_common (n : ℕ) (c : List (String × ℕ)) : List (String × ℕ) :=
  (List.insertionSort countsDesc c).take n

/-- Model of `identify_priority_issues` (lines 141-182). `analyzed` is
`self.feedback_data` after sentiment annotation; its length is
`len(self.feedback_data)`, the denominator of each percentage (line 173). -/
def identify_priority_issues (analyzed : List (Option String × String)) :
    PriorityResult :=
  if (analyzed.filter (fun r => r.2 = "negative")).length = 0 then
    .sentinel
  else
    let negative_issues :=
      tally ((negative_keywords analyzed).filter (· ∈ problem_keywords))
    .issues ((most_common 5 negative_issues).map (fun p =>
      { issue := p.1
        frequency := p.2
        percentage := round1 ((p.2 : ℚ) / analyzed.length * 100) }))

/-! ### `generate_insights_report` key insights (lines 184-236) -/

/-- One key-insight finding; the f-string texts of lines 208, 210, 218, 225
are abstracted to constructors carrying the interpolated values. -/
inductive Insight where
  | strongPositive : ℚ → Insight
  | highNegative : ℚ → Insight
  | topTheme : String → ℕ → Insight
  | topComplaint : String → ℚ → Insight
deriving DecidableEq, Repr

/-- Sentiment section of the key insights (lines 204-210): note the
`if ... elif ...` — the high-negative finding is suppressed whenever the
strong-positive one fires. `pPos`/`pNeg` are
`sentiment['percentages'].get('positive'/'negative', 0)`. -/
def sentiment_insights (pPos pNeg : ℚ) : List Insight :=
  if 60 < pPos then [.strongPositive pPos]
  else if 30 < pNeg then [.highNegative pNeg]
  else []

/-- Python `max(items, key=itemgetter 1)`: first maximal element. -/
def maxByCount (l : List (String × ℕ)) : Option (String × ℕ) :=
  l.foldl (fun acc p =>
    match acc with
    | none => some p
    | some q => if q.2 < p.2 then some p else some q) none

/-- Theme section of the key insights (lines 213-218). -/
def theme_insights (themes : List (String × ℕ)) : List Insight :=
  match maxByCount themes with
  | some p => [.topTheme p.1 p.2]
  | none => []

/-- Priority-issue section of the key insights (lines 221-225): the guard
`if issues and not isinstance(issues, dict)` means the sentinel dict and the
empty list both produce no finding. -/
def priority_insights : Option PriorityResult → List Insight
  | some (.issues (top :: _)) => [.topComplaint top.issue top.percentage]
  | _ => []

/-- The ranked list carried by a normal-shaped result; `[]` for the
sentinel (observation helper for stating theorems). -/
def issuesListOf : PriorityResult → List Issue
  | .sentinel => []
  | .issues l => l

/-- The retained issue keywords in rank order, `none` for the sentinel
(observation helper for stating theorems). -/
def issueNames : PriorityResult → Option (List String)
  | .sentinel => none
  | .issues l => some (l.map (fun e => e.issue))

/-- The retained (keyword, frequency) pairs in rank order, `none` for the
sentinel (observation helper for stating theorems). -/
def issueFreqs : PriorityResult → Option (List (String × ℕ))
  | .sentinel => none
  | .issues l => some (l.map (fun e => (e.issue, e.frequency)))

/-- The analysis-results dict as read by `generate_insights_report`;
`none` fields model absent keys. The sentiment field carries the
(positive, negative) percentages the report reads with `.get(_, 0)`. -/
structure AnalysisResults where
  sentiment : Option (ℚ × ℚ)
  themes : Option (List (String × ℕ))
  priority : Option PriorityResult

/-- The `key_insights` list of the report (lines 194-225), sections in
evaluation order. -/
def key_insights (r : AnalysisResults) : List Insight :=
  (match r.sentiment with
   | some p => sentiment_insights p.1 p.2
   | none => []) ++
  (match r.themes with
   | some ts => theme_insights ts
   | none => []) ++
  priority_insights r.priority

/-- The amended description of the category totals, written from the
corrected spec wording rather than from the code: each of a category's
keywords contributes its raw corpus count when that count meets the
threshold and 0 otherwise, and zero-total categories are omitted. Used to
compare `categorized_themes` against the amended claim. -/
def theme_totals_spec (min_frequency : ℕ) (data : List (Option String)) :
    List (String × ℕ) :=
  (theme_categories.map (fun p =>
    (p.1, (p.2.map (fun k =>
      if min_frequency ≤ keyword_count data k then keyword_count data k
      else 0)).sum))).filter (fun p => 0 < p.2)

end FeedbackAnalyzer

namespace SurveyDataProcessor

/-! ### `calculate_satisfaction_metrics` (survey_data_processor.py lines
62-98) and `analyze_by_segments` (lines 100-126), per rating column.
Both functions loop over the rating columns independently, so they are
embedded column-wise: a column is a `List (Option ℚ)`, one entry per row of
`processed_data`. -/

/-- Pandas `series.count()`: non-missing entries. -/
def colCount (col : List (Option ℚ)) : ℕ :=
  col.countP (fun v => v.isSome)

/-- Sum of the non-missing entries. -/
def colSum (col : List (Option ℚ)) : ℚ :=
  (col.map (fun v => v.getD 0)).sum

/-- Pandas `series.mean()` (skips NaN): `none` on an all-missing column
(pandas yields NaN there). -/
def colMean (col : List (Option ℚ)) : Option ℚ :=
  if colCount col = 0 then none else some (colSum col / colCount col)

/-- Pandas `series.max()` (skips NaN): `none` on an all-missing column. -/
def colMax (col : List (Option ℚ)) : Option ℚ :=
  (col.filterMap id).max?

/-- Model of `(series >= q).sum()`: NaN compares false, so this counts non-missing
entries that are ≥ q. -/
def countGE (col : List (Option ℚ)) (q : ℚ) : ℕ :=
  col.countP (fun v =>
    match v with
    | some x => q ≤ x
    | none => false)

/-- Model of `(series <= q).sum()`. -/
def countLE (col : List (Option ℚ)) (q : ℚ) : ℕ :=
  col.countP (fun v =>
    match v with
    | some x => x ≤ q
    | none => false)

/-- The per-column entry of `metrics` (lines 76-95), restricted to the
fields the claims are about; `median` and `std` (lines 78, 80) are not
embedded (no claim mentions them). A `none` satisfaction_rate or nps_score
models the key being absent (the `max() <= 5` / `max() <= 10` guard failed,
which includes the all-missing column where `max()` is NaN). -/
structure ColMetrics where
  mean : Option ℚ
  count : ℕ
  satisfaction_rate : Option ℚ
  nps_score : Option ℚ
deriving DecidableEq, Repr

/-- Model of `calculate_satisfaction_metrics` on one rating column. The
satisfaction-rate denominator is `len(satisfied)` (line 87) — the full
series length, missing rows included; the NPS denominator is likewise
`len(self.processed_data[col])` (line 94). -/
def calculate_satisfaction_metrics (col : List (Option ℚ)) : ColMetrics :=
  { mean := (colMean col).map round2
    count := colCount col
    satisfaction_rate :=
      match colMax col with
      | some m =>
        if m ≤ 5 then
          some (round1 ((countGE col 4 : ℚ) / col.length * 100))
        else none
      | none => none
    nps_score :=
      match colMax col with
      | some m =>
        if m ≤ 10 then
          some (round1 (((countGE col 9 : ℚ) - (countLE col 6 : ℚ)) /
            col.length * 100))
        else none
      | none => none }

/-- The per-column entry of a segment's metrics (lines 115-121): mean,
count and satisfaction_rate only. Here `satisfaction_rate = none` models
the explicit `None` of line 120. -/
structure SegColMetrics where
  mean : Option ℚ
  count : ℕ
  satisfaction_rate : Option ℚ
deriving DecidableEq, Repr

/-- One rating column paired row-by-row with the segment column:
`(segment value, rating value)` per row. -/
def segFilter (seg : String) (rows : List (String × Option ℚ)) :
    List (Option ℚ) :=
  (rows.filter (fun r => r.1 = seg)).map (fun r => r.2)

/-- The metrics `analyze_by_segments` computes for segment value `seg` on
one rating column (lines 110-121): statistics of the filtered rows, with
denominator `len(segment_data)` (line 119) and the `max() <= 5` guard of
line 120. -/
def analyze_by_segments (seg : String) (rows : List (String × Option ℚ)) :
    SegColMetrics :=
  let col := segFilter seg rows
  { mean := (colMean col).map round2
    count := colCount col
    satisfaction_rate :=
      match colMax col with
      | some m =>
        if m ≤ 5 then
          some (round1 ((countGE col 4 : ℚ) / col.length * 100))
        else none
      | none => none }

end SurveyDataProcessor

/-! ## General lemmas -/

theorem abs_roundHE_sub_le (x : ℚ) : |(roundHE x : ℚ) - x| ≤ 1/2 := by
  have hfl : (⌊x⌋ : ℚ) ≤ x := Int.floor_le x
  have hfu : x < (⌊x⌋ : ℚ) + 1 := Int.lt_floor_add_one x
  unfold roundHE
  dsimp only
  split
  · rw [abs_le]; constructor <;> [linarith; linarith]
  · split
    · rw [abs_le]
      push_cast
      constructor <;> [linarith; linarith]
    · split
      · rw [abs_le]; constructor <;> [linarith; linarith]
      · rw [abs_le]
        push_cast
        constructor <;> [linarith; linarith]

namespace FeedbackAnalyzer

theorem common_get_one (data : List (Option String)) (k : String) :
    common_get 1 data k = keyword_count data k := by
  unfold common_get
  dsimp only
  split
  · rfl
  · omega

theorem classifyOne_fst_cases (score : String → ℚ) (fb : Option String) :
    (classifyOne score fb).1 = "positive" ∨ (classifyOne score fb).1 = "negative" ∨
      (classifyOne score fb).1 = "neutral" := by
  cases fb with
  | none => right; right; rfl
  | some t =>
    simp only [classifyOne, classify]
    split
    · left; rfl
    · split
      · right; left; rfl
      · right; right; rfl

end FeedbackAnalyzer

/-! ## Claim C1 -/

namespace FeedbackAnalyzer

/-- C1 counterexample: the spec's own concrete check refutes the claim on
the code. On the corpus where "slow" occurs twice and "fast" once, the
performance total at threshold 2 is 2 (the sub-threshold "fast" count is
dropped), not the raw 3, and the `theme_categories` mapping differs between
thresholds 1 and 2, so it is not threshold-invariant. -/
theorem categorized_themes_not_threshold_invariant :
    categorized_themes 2 [some "slow", some "slow", some "fast"] =
      [("performance", 2)] ∧
    categorized_themes 1 [some "slow", some "slow", some "fast"] =
      [("performance", 3)] ∧
    categorized_themes 2 [some "slow", some "slow", some "fast"] ≠
      categorized_themes 1 [some "slow", some "slow", some "fast"] := by
  refine ⟨by decide, by decide, by decide⟩

/-- C1 amended: `extract_themes` category totals are gated by the
min-frequency threshold — each keyword contributes its raw corpus-wide
count exactly when that count meets the threshold (so `theme_categories`
varies with the threshold along with `common_keywords`); at threshold 1
the totals do sum the raw counts. -/
theorem categorized_themes_thresholded (min_frequency : ℕ)
    (data : List (Option String)) :
    categorized_themes min_frequency data =
      theme_totals_spec min_frequency data ∧
    categorized_themes 1 data =
      (theme_categories.map (fun p =>
        (p.1, (p.2.map (keyword_count data)).sum))).filter
        (fun p => 0 < p.2) := by
  constructor
  · rfl
  · have hfun : common_get 1 data = keyword_count data :=
      funext (common_get_one data)
    simp only [categorized_themes, hfun]

end FeedbackAnalyzer

/-! ## Claim C3 -/

namespace FeedbackAnalyzer

/-- C3 counterexample: with positive percentage 61 and negative percentage
31 (both rule conditions hold), the report's sentiment section emits only
the strong-positive finding — the `elif` suppresses the high-negative one,
so the two rules are not independent. -/
theorem sentiment_insights_not_independent :
    (60 : ℚ) < 61 ∧ (30 : ℚ) < 31 ∧
    key_insights ⟨some (61, 31), none, none⟩ = [.strongPositive 61] ∧
    Insight.highNegative 31 ∉ key_insights ⟨some (61, 31), none, none⟩ := by
  refine ⟨by norm_num, by norm_num, by decide, by decide⟩

/-- C3 amended: the two sentiment rules are mutually exclusive with the
strong-positive rule taking precedence — when the positive percentage
exceeds 60 only the strong-positive finding is emitted, and the
high-negative finding is emitted exactly when the positive percentage is
at most 60 and the negative percentage exceeds 30. -/
theorem sentiment_insights_precedence (pPos pNeg : ℚ) :
    (60 < pPos → sentiment_insights pPos pNeg = [.strongPositive pPos]) ∧
    (¬ 60 < pPos → 30 < pNeg →
      sentiment_insights pPos pNeg = [.highNegative pNeg]) := by
  constructor
  · intro h
    simp only [sentiment_insights, if_pos h]
  · intro h h2
    simp only [sentiment_insights, if_neg h, if_pos h2]

/-- Witness for `sentiment_insights_precedence` at concrete inputs:
(61, 31) fires only the strong-positive finding, (50, 31) fires the
high-negative one. -/
theorem sentiment_insights_precedence_witness :
    sentiment_insights 61 31 = [.strongPositive 61] ∧
    sentiment_insights 50 31 = [.highNegative 31] := by
  constructor
  · exact (sentiment_insights_precedence 61 31).1 (by norm_num)
  · exact (sentiment_insights_precedence 50 31).2 (by norm_num) (by norm_num)

end FeedbackAnalyzer

/-! ## Claim C9 -/

namespace FeedbackAnalyzer

/-- C9: a response with absent text is labelled "neutral" with polarity 0,
and the labelling of such a response is independent of the polarity scoring
function (it is never invoked): any two scorers yield the identical
(category, score) pair at every null position. -/
theorem absent_text_neutral_scorer_independent (f g : String → ℚ)
    (data : List (Option String)) (i : ℕ) (h : data[i]? = some none) :
    (sentimentsOf f data)[i]? = some ("neutral", 0) ∧
    (sentimentsOf g data)[i]? = (sentimentsOf f data)[i]? := by
  unfold sentimentsOf
  rw [List.getElem?_map, List.getElem?_map, h]
  exact ⟨rfl, rfl⟩

/-- Witness for `absent_text_neutral_scorer_independent`: two scorers that
disagree on every text still agree — with the neutral default — at a null
entry. -/
theorem absent_text_neutral_witness :
    (sentimentsOf (fun _ => 1) [some "x", none])[1]? = some ("neutral", 0) ∧
    (sentimentsOf (fun _ => -1) [some "x", none])[1]? =
      (sentimentsOf (fun _ => 1) [some "x", none])[1]? :=
  absent_text_neutral_scorer_independent (fun _ => 1) (fun _ => -1)
    [some "x", none] 1 rfl

end FeedbackAnalyzer

/-! ## Claim C10 -/

namespace FeedbackAnalyzer

/-- C10: `analyze_sentiment` reaches its division-by-zero error branch
exactly on an empty loaded feedback list — non-emptiness is necessary and
sufficient for a normal return. -/
theorem analyze_sentiment_none_iff_empty (f : String → ℚ)
    (data : List (Option String)) :
    analyze_sentiment f data = none ↔ data = [] := by
  unfold analyze_sentiment
  split
  · simp_all [List.length_eq_zero]
  · simp_all [List.length_eq_zero]

end FeedbackAnalyzer

/-! ## Claim C2 -/

namespace SurveyDataProcessor

/-- C2 counterexample: on the column `[5, missing]` (observed max 5) the
code reports a satisfaction rate of 50, because the denominator
`len(satisfied)` is the full series length 2, missing row included — not
the claimed percentage of non-missing values (1 of 1, i.e. 100). -/
theorem satisfaction_rate_not_over_nonmissing :
    (calculate_satisfaction_metrics [some 5, none]).satisfaction_rate =
      some 50 ∧
    (calculate_satisfaction_metrics [some 5, none]).satisfaction_rate ≠
      some (round1 ((countGE [some 5, none] 4 : ℚ) /
        (colCount [some 5, none] : ℚ) * 100)) := by
  constructor
  · norm_num [calculate_satisfaction_metrics, colMax, colCount, colSum,
      colMean, countGE, countLE, round1, roundHE, List.filterMap, List.max?,
      List.countP, List.countP.go]
  · norm_num [calculate_satisfaction_metrics, colMax, colCount, colSum,
      colMean, countGE, countLE, round1, roundHE, List.filterMap, List.max?,
      List.countP, List.countP.go]

/-- C2 amended: when the column's observed maximum is ≤ 5,
`calculate_satisfaction_metrics` produces a satisfaction_rate equal to the
percentage of ALL rows of the column — missing values included in the
denominator — whose value is ≥ 4, rounded to 1 decimal; when the observed
maximum exceeds 5, no satisfaction_rate is produced. -/
theorem satisfaction_rate_denominator_total (col : List (Option ℚ)) (m : ℚ)
    (hmax : colMax col = some m) :
    (m ≤ 5 → (calculate_satisfaction_metrics col).satisfaction_rate =
      some (round1 (100 * (col.countP (fun v =>
        match v with
        | some x => decide ((4 : ℚ) ≤ x)
        | none => false) : ℚ) / (col.length : ℚ)))) ∧
    (5 < m → (calculate_satisfaction_metrics col).satisfaction_rate =
      none) := by
  constructor
  · intro h5
    simp only [calculate_satisfaction_metrics, hmax, if_pos h5]
    have harith : ((countGE col 4 : ℚ)) / (col.length : ℚ) * 100 =
        100 * ((countGE col 4 : ℚ)) / (col.length : ℚ) := by ring
    rw [harith]
    rfl
  · intro h5
    simp only [calculate_satisfaction_metrics, hmax, if_neg (not_le.mpr h5)]

/-- Witness for `satisfaction_rate_denominator_total`: the column
`[5, missing]` has max 5 ≤ 5 and yields the total-denominator rate; the
column `[7]` has max 7 > 5 and yields no rate. -/
theorem satisfaction_rate_denominator_total_witness :
    ((calculate_satisfaction_metrics [some 5, none]).satisfaction_rate =
      some (round1 (100 * (([some 5, none] : List (Option ℚ)).countP (fun v =>
        match v with
        | some x => decide ((4 : ℚ) ≤ x)
        | none => false) : ℚ) / (([some 5, none] : List (Option ℚ)).length : ℚ)))) ∧
    (calculate_satisfaction_metrics [some 7]).satisfaction_rate = none := by
  constructor
  · exact (satisfaction_rate_denominator_total [some 5, none] 5
      (by decide)).1 (by norm_num)
  · exact (satisfaction_rate_denominator_total [some 7] 7
      (by decide)).2 (by norm_num)

end SurveyDataProcessor

/-! ## Claim C5 -/

namespace FeedbackAnalyzer

/-- C5: every retained priority issue's percentage is its frequency divided
by the TOTAL number of loaded responses, times 100, rounded to 1 decimal
(the denominator is `len(self.feedback_data)`, not the count of negative
responses). -/
theorem priority_percentage_total_denominator
    (analyzed : List (Option String × String)) (e : Issue)
    (h : e ∈ issuesListOf (identify_priority_issues analyzed)) :
    e.percentage =
      round1 ((e.frequency : ℚ) / (analyzed.length : ℚ) * 100) := by
  unfold identify_priority_issues at h
  split at h
  · simp [issuesListOf] at h
  · simp only [issuesListOf] at h
    obtain ⟨p, hp, rfl⟩ := List.mem_map.mp h
    rfl

/-- Witness for `priority_percentage_total_denominator`, the spec's own
example: 20 loaded responses, 3 negative, one negative text containing
"slow" → the retained issue "slow" has percentage 1/20 × 100 = 5.0 (not
1/3 × 100). -/
theorem priority_percentage_witness :
    ((issuesListOf (identify_priority_issues
      ([(some "slow", "negative"), (some "bad", "negative"),
        (some "bad", "negative")] ++
        List.replicate 17 (some "ok", "neutral")))).get ⟨0, by decide⟩).percentage = 5 := by
  have h := priority_percentage_total_denominator
    ([(some "slow", "negative"), (some "bad", "negative"),
      (some "bad", "negative")] ++
      List.replicate 17 (some "ok", "neutral"))
    ((issuesListOf (identify_priority_issues
      ([(some "slow", "negative"), (some "bad", "negative"),
        (some "bad", "negative")] ++
        List.replicate 17 (some "ok", "neutral")))).get ⟨0, by decide⟩)
    (List.get_mem _ _ _)
  rw [h]
  have hf : ((issuesListOf (identify_priority_issues
      ([(some "slow", "negative"), (some "bad", "negative"),
        (some "bad", "negative")] ++
        List.replicate 17 (some "ok", "neutral")))).get ⟨0, by decide⟩).frequency = 1 := by
    decide
  rw [hf]
  norm_num [round1, roundHE]

end FeedbackAnalyzer

/-! ## Claim C6 -/

namespace FeedbackAnalyzer

/-- C6: with zero negative-sentiment responses, `identify_priority_issues`
returns the sentinel message dict — a shape distinct from any ranked list,
in particular from the empty list — and the report's priority section,
whose guard `if issues and not isinstance(issues, dict)` discriminates by
shape, emits no top-complaint finding for the sentinel regardless of the
other report inputs. -/
theorem no_negative_sentinel (analyzed : List (Option String × String))
    (h : ∀ r ∈ analyzed, r.2 ≠ "negative") :
    identify_priority_issues analyzed = .sentinel ∧
    PriorityResult.sentinel ≠ PriorityResult.issues [] ∧
    (∀ (s : Option (ℚ × ℚ)) (t : Option (List (String × ℕ)))
      (iss : String) (pct : ℚ),
      Insight.topComplaint iss pct ∉ key_insights ⟨s, t, some .sentinel⟩) := by
  refine ⟨?_, by simp, ?_⟩
  · unfold identify_priority_issues
    rw [if_pos]
    rw [List.length_eq_zero, List.filter_eq_nil_iff]
    intro a ha
    simpa using h a ha
  · intro s t iss pct hmem
    simp only [key_insights, List.mem_append] at hmem
    rcases hmem with (hmem | hmem) | hmem
    · match s with
      | none => simp at hmem
      | some p =>
        simp only [sentiment_insights] at hmem
        split at hmem
        · simp at hmem
        · split at hmem <;> simp at hmem
    · match t with
      | none => simp at hmem
      | some ts =>
        simp only [theme_insights] at hmem
        split at hmem <;> simp_all
    · simp [priority_insights] at hmem

/-- Witness for `no_negative_sentinel`: a run with a single positive
response returns the sentinel and the report emits no top-complaint
finding for it. -/
theorem no_negative_sentinel_witness :
    identify_priority_issues [(some "great", "positive")] = .sentinel ∧
    Insight.topComplaint "slow" 5 ∉
      key_insights ⟨some (100, 0), some [("usability", 2)], some .sentinel⟩ := by
  have h := no_negative_sentinel [(some "great", "positive")] (by decide)
  exact ⟨h.1, h.2.2 (some (100, 0)) (some [("usability", 2)]) "slow" 5⟩

end FeedbackAnalyzer

/-! ## Claim C8 -/

namespace SurveyDataProcessor

/-- C8: on a table where a single segment value covers 100% of the rows,
`analyze_by_segments` reproduces for that value, per rating column, exactly
the mean, count and satisfaction_rate of `calculate_satisfaction_metrics`
on the unsegmented column (median, std and nps_score are not computed per
segment). -/
theorem segments_match_unsegmented (rows : List (String × Option ℚ))
    (s : String) (h : ∀ r ∈ rows, r.1 = s) :
    analyze_by_segments s rows =
      { mean := (calculate_satisfaction_metrics (rows.map (fun r => r.2))).mean
        count := (calculate_satisfaction_metrics (rows.map (fun r => r.2))).count
        satisfaction_rate :=
          (calculate_satisfaction_metrics (rows.map (fun r => r.2))).satisfaction_rate } := by
  have hseg : segFilter s rows = rows.map (fun r => r.2) := by
    unfold segFilter
    congr 1
    apply List.filter_eq_self.mpr
    intro a ha
    simpa using h a ha
  simp only [analyze_by_segments, calculate_satisfaction_metrics, hseg]

/-- Witness for `segments_match_unsegmented`: a two-row table whose every
row carries segment "a". -/
theorem segments_match_unsegmented_witness :
    analyze_by_segments "a" [("a", some 5), ("a", none)] =
      { mean := (calculate_satisfaction_metrics
          ([("a", some 5), ("a", none)].map (fun r => r.2))).mean
        count := (calculate_satisfaction_metrics
          ([("a", some 5), ("a", none)].map (fun r => r.2))).count
        satisfaction_rate := (calculate_satisfaction_metrics
          ([("a", some 5), ("a", none)].map (fun r => r.2))).satisfaction_rate } :=
  segments_match_unsegmented [("a", some 5), ("a", none)] "a" (by decide)

end SurveyDataProcessor

/-! ## Claim C4 -/

namespace FeedbackAnalyzer

theorem mem_of_mem_keysInOrder (w : String) (l : List String)
    (h : w ∈ keysInOrder l) : w ∈ l := by
  unfold keysInOrder at h
  suffices hgen : ∀ (l : List String) (acc : List String),
      w ∈ l.foldl (fun acc w => if w ∈ acc then acc else acc ++ [w]) acc →
      w ∈ acc ∨ w ∈ l by
    rcases hgen l [] h with hc | hc
    · simp at hc
    · exact hc
  intro l
  induction l with
  | nil => intro acc hh; exact Or.inl hh
  | cons a t ih =>
    intro acc hh
    rw [List.foldl_cons] at hh
    rcases ih _ hh with hc | hc
    · by_cases hmem : a ∈ acc
      · rw [if_pos hmem] at hc
        exact Or.inl hc
      · rw [if_neg hmem] at hc
        rcases List.mem_append.mp hc with hc2 | hc2
        · exact Or.inl hc2
        · simp only [List.mem_singleton] at hc2
          subst hc2
          exact Or.inr (List.mem_cons_self _ _)
    · exact Or.inr (List.mem_cons_of_mem _ hc)

theorem mem_tally (p : String × ℕ) (l : List String) (h : p ∈ tally l) :
    p.1 ∈ l ∧ p.2 = l.count p.1 := by
  unfold tally at h
  obtain ⟨w, hw, rfl⟩ := List.mem_map.mp h
  exact ⟨mem_of_mem_keysInOrder w l hw, rfl⟩

/-- C4 counterexample: the tie-break between equal counts follows the
first-occurrence order of the keywords in the negative texts, not the
problem-vocabulary iteration order. With the single negative text
"bug slow", both keywords have count 1, yet the ranking puts "bug" before
"slow" although the vocabulary lists "slow" (index 0) before "bug"
(index 6); reversing the text reverses the ranking, so the order depends on
the order keywords are encountered in the texts. -/
theorem priority_tiebreak_not_vocabulary_order :
    issueFreqs (identify_priority_issues [(some "bug slow", "negative")]) =
      some [("bug", 1), ("slow", 1)] ∧
    issueFreqs (identify_priority_issues [(some "slow bug", "negative")]) =
      some [("slow", 1), ("bug", 1)] ∧
    problem_keywords.indexOf "slow" < problem_keywords.indexOf "bug" := by
  refine ⟨by decide, by decide, by decide⟩

/-- C4 amended: `identify_priority_issues` counts problem-vocabulary
keywords only over the responses labelled "negative", ranks the retained
entries in descending count order, and retains at most 5 of them; each
retained entry carries the exact occurrence count of its keyword in the
negative texts. (The tie order between equal counts is the keywords'
first-occurrence order in the negative texts, not the vocabulary order —
see the counterexample.) -/
theorem priority_ranking_properties (analyzed : List (Option String × String)) :
    (issuesListOf (identify_priority_issues analyzed)).length ≤ 5 ∧
    List.Pairwise (fun a b => b.frequency ≤ a.frequency)
      (issuesListOf (identify_priority_issues analyzed)) ∧
    (∀ e ∈ issuesListOf (identify_priority_issues analyzed),
      e.issue ∈ problem_keywords ∧
      e.frequency = ((negative_keywords analyzed).filter
        (· ∈ problem_keywords)).count e.issue) := by
  unfold identify_priority_issues
  split
  · exact ⟨by simp [issuesListOf], by simp [issuesListOf],
      by simp [issuesListOf]⟩
  · simp only [issuesListOf]
    refine ⟨?_, ?_, ?_⟩
    · rw [List.length_map]
      unfold most_common
      exact List.length_take_le _ _
    · rw [List.pairwise_map]
      have hs : List.Pairwise countsDesc
          (List.insertionSort countsDesc
            (tally ((negative_keywords analyzed).filter
              (· ∈ problem_keywords)))) :=
        List.sorted_insertionSort countsDesc _
      have ht : List.Pairwise countsDesc
          (most_common 5 (tally ((negative_keywords analyzed).filter
            (· ∈ problem_keywords)))) :=
        List.Pairwise.sublist (List.take_sublist _ _) hs
      exact ht.imp (fun hab => hab)
    · intro e he
      obtain ⟨p, hp, rfl⟩ := List.mem_map.mp he
      have hp2 : p ∈ List.insertionSort countsDesc
          (tally ((negative_keywords analyzed).filter
            (· ∈ problem_keywords))) :=
        List.mem_of_mem_take hp
      have hp3 : p ∈ tally ((negative_keywords analyzed).filter
          (· ∈ problem_keywords)) :=
        (List.perm_insertionSort countsDesc _).mem_iff.mp hp2
      obtain ⟨hmem, hcount⟩ := mem_tally p _ hp3
      refine ⟨?_, hcount⟩
      have := List.mem_filter.mp hmem
      simpa using this.2

/-- Witness for `priority_ranking_properties` on a concrete run with one
negative response "bug slow": at most 5 issues are retained and the first
retained entry is a problem keyword counted over the negative texts. -/
theorem priority_ranking_properties_witness :
    (issuesListOf (identify_priority_issues
      [(some "bug slow", "negative")])).length ≤ 5 ∧
    (((issuesListOf (identify_priority_issues
      [(some "bug slow", "negative")])).get ⟨0, by decide⟩).issue ∈
        problem_keywords ∧
      ((issuesListOf (identify_priority_issues
        [(some "bug slow", "negative")])).get ⟨0, by decide⟩).frequency =
        ((negative_keywords [(some "bug slow", "negative")]).filter
          (· ∈ problem_keywords)).count
          ((issuesListOf (identify_priority_issues
            [(some "bug slow", "negative")])).get ⟨0, by decide⟩).issue) := by
  refine ⟨(priority_ranking_properties [(some "bug slow", "negative")]).1, ?_⟩
  exact (priority_ranking_properties [(some "bug slow", "negative")]).2.2
    _ (List.get_mem _ _ _)

end FeedbackAnalyzer

/-! ## Claim C7 -/

namespace FeedbackAnalyzer

theorem count_three_categories (f : String → ℚ) (data : List (Option String)) :
    (sentimentsOf f data).countP (fun r => r.1 = "positive") +
      (sentimentsOf f data).countP (fun r => r.1 = "negative") +
      (sentimentsOf f data).countP (fun r => r.1 = "neutral") =
      data.length := by
  induction data with
  | nil => rfl
  | cons a t ih =>
    simp only [sentimentsOf, List.map_cons, List.countP_cons,
      List.length_cons] at *
    rcases classifyOne_fst_cases f a with h | h | h <;>
      simp [h, -List.countP_map] <;> omega

theorem round1_three_sum (a b c n : ℕ) (hn : n ≠ 0) (hsum : a + b + c = n) :
    |round1 ((a : ℚ) / n * 100) + round1 ((b : ℚ) / n * 100) +
      round1 ((c : ℚ) / n * 100) - 100| ≤ 1/10 := by
  have hn' : (n : ℚ) ≠ 0 := Nat.cast_ne_zero.mpr hn
  have hcast : (a : ℚ) + (b : ℚ) + (c : ℚ) = (n : ℚ) := by
    exact_mod_cast hsum
  have hx : (a : ℚ) / n * 100 + (b : ℚ) / n * 100 + (c : ℚ) / n * 100 = 100 := by
    field_simp
    linarith
  have ha := abs_roundHE_sub_le (10 * ((a : ℚ) / n * 100))
  have hb := abs_roundHE_sub_le (10 * ((b : ℚ) / n * 100))
  have hc := abs_roundHE_sub_le (10 * ((c : ℚ) / n * 100))
  set A : ℤ := roundHE (10 * ((a : ℚ) / n * 100))
  set B : ℤ := roundHE (10 * ((b : ℚ) / n * 100))
  set C : ℤ := roundHE (10 * ((c : ℚ) / n * 100))
  have hd : |((A + B + C - 1000 : ℤ) : ℚ)| ≤ 3/2 := by
    have heq : ((A + B + C - 1000 : ℤ) : ℚ) =
        ((A : ℚ) - 10 * ((a : ℚ) / n * 100)) +
        ((B : ℚ) - 10 * ((b : ℚ) / n * 100)) +
        ((C : ℚ) - 10 * ((c : ℚ) / n * 100)) := by
      push_cast
      linarith
    rw [heq]
    calc |((A : ℚ) - 10 * ((a : ℚ) / n * 100)) +
          ((B : ℚ) - 10 * ((b : ℚ) / n * 100)) +
          ((C : ℚ) - 10 * ((c : ℚ) / n * 100))|
        ≤ |((A : ℚ) - 10 * ((a : ℚ) / n * 100)) +
            ((B : ℚ) - 10 * ((b : ℚ) / n * 100))| +
          |((C : ℚ) - 10 * ((c : ℚ) / n * 100))| := abs_add _ _
      _ ≤ |((A : ℚ) - 10 * ((a : ℚ) / n * 100))| +
          |((B : ℚ) - 10 * ((b : ℚ) / n * 100))| +
          |((C : ℚ) - 10 * ((c : ℚ) / n * 100))| := by
            have := abs_add ((A : ℚ) - 10 * ((a : ℚ) / n * 100))
              ((B : ℚ) - 10 * ((b : ℚ) / n * 100))
            linarith
      _ ≤ 3/2 := by linarith
  have hd1 : |A + B + C - 1000| ≤ 1 := by
    by_contra hcon
    push_neg at hcon
    have h2 : (2 : ℤ) ≤ |A + B + C - 1000| := hcon
    have h2q : (2 : ℚ) ≤ |((A + B + C - 1000 : ℤ) : ℚ)| := by
      rw [← Int.cast_abs]
      exact_mod_cast h2
    linarith
  have hgoal : round1 ((a : ℚ) / n * 100) + round1 ((b : ℚ) / n * 100) +
      round1 ((c : ℚ) / n * 100) - 100 = ((A + B + C - 1000 : ℤ) : ℚ) / 10 := by
    unfold round1
    push_cast
    ring
  rw [hgoal, abs_div]
  have h1q : |((A + B + C - 1000 : ℤ) : ℚ)| ≤ 1 := by
    rw [← Int.cast_abs]
    exact_mod_cast hd1
  rw [abs_of_pos (by norm_num : (0 : ℚ) < 10)]
  linarith

/-- C7: for every non-empty response set and every polarity scorer, the
three sentiment category percentages computed by `analyze_sentiment`
(each count / total × 100, rounded to 1 decimal; an absent category
contributes 0) sum to 100 within a tolerance of 0.1. -/
theorem sentiment_percentages_sum_near_100 (f : String → ℚ)
    (data : List (Option String)) (s : SentimentSummary)
    (h : analyze_sentiment f data = some s) :
    |s.pctPositive + s.pctNegative + s.pctNeutral - 100| ≤ 1/10 := by
  unfold analyze_sentiment at h
  split at h
  · exact absurd h (by simp)
  · rename_i hz
    obtain rfl : s = _ := (Option.some.inj h).symm
    exact round1_three_sum _ _ _ data.length hz
      (count_three_categories f data)

/-- Witness for `sentiment_percentages_sum_near_100`: the one-response run
with scorer constantly 0 classifies everything neutral (percentages
0/0/100), which sums to exactly 100. -/
theorem sentiment_percentages_witness :
    analyze_sentiment (fun _ => 0) [some "x"] =
      some ⟨0, 0, 1, 0, 0, 100, 0⟩ ∧
    |(0 : ℚ) + 0 + 100 - 100| ≤ 1/10 := by
  have hnp : (("neutral" : String) = "positive") = False :=
    eq_false (by decide)
  have hnn : (("neutral" : String) = "negative") = False :=
    eq_false (by decide)
  have heq : analyze_sentiment (fun _ => 0) [some "x"] =
      some ⟨0, 0, 1, 0, 0, 100, 0⟩ := by
    norm_num [analyze_sentiment, sentimentsOf, classifyOne, classify,
      round1, round3, roundHE, List.countP, List.countP.go, hnp, hnn,
      Int.fract]
  refine ⟨heq, ?_⟩
  have h := sentiment_percentages_sum_near_100 (fun _ => 0) [some "x"]
    ⟨0, 0, 1, 0, 0, 100, 0⟩ heq
  simp only [SentimentSummary.mk.injEq] at h
  exact h

end FeedbackAnalyzer
